import Mathlib

/-!
Verification of the serial-protocol and test-control logic of the Z-Wave
range-test programs (`ZWaveRangeTest.py`, the lighter variant, and
`ZWaveRSSITest.py`, the richer variant).

Modelling conventions:
* a byte is a `Nat` (with `< 256` hypotheses where byte-ness matters);
* a single serial read that can time out is an `Option Nat`
  (`none` = the read timed out, i.e. Python's `GetRxChar` returned `None`);
* an input stream is a `List (Option Nat)` of successive read results, the
  empty list meaning every further read times out;
* Python `print` calls are elided (they do not change any observable data);
* a Python `TypeError` crash (`ord(None)`, `pkt += None`, `len(None)`) is
  modelled by an explicit error result.
-/

namespace ZWave

/-- SerialAPI start-of-frame marker (source constant `SOF = 0x01`). -/
def SOF : Nat := 0x01

/-- SerialAPI acknowledgment byte (source constant `ACK = 0x06`). -/
def ACK : Nat := 0x06

/-- direction byte for host-originated frames (source constant `REQUEST = 0x00`). -/
def REQUEST : Nat := 0x00

/-- checksum of `ZWaveRangeTest.py` lines 193-199 (textually identical in
`ZWaveRSSITest.py` lines 188-194): the accumulator starts at `0xFF` and every
byte of the packet is XOR-ed in, in order. -/
def checksum (pkt : List Nat) : Nat :=
  pkt.foldl (fun s c => s ^^^ c) 0xFF

/-- wire frame built by `Send2ZWave` (`ZWaveRangeTest.py` lines 249-251):
the length byte (`len(cmd)+2`) and the `REQUEST` byte are prepended to the
command to form the checksummed body, then `SOF` is prepended and the
checksum appended. -/
def encodeFrame (cmd : List Nat) : List Nat :=
  SOF :: ((cmd.length + 2) :: REQUEST :: cmd)
    ++ [checksum ((cmd.length + 2) :: REQUEST :: cmd)]

theorem foldl_xor_shift (l : List Nat) (a b : Nat) :
    List.foldl (fun s c => s ^^^ c) (a ^^^ b) l
      = a ^^^ List.foldl (fun s c => s ^^^ c) b l := by
  induction l generalizing b with
  | nil => rfl
  | cons c t ih =>
    simp only [List.foldl_cons]
    rw [Nat.xor_assoc, ih]

theorem checksum_cons (a : Nat) (l : List Nat) :
    checksum (a :: l) = List.foldl (fun s c => s ^^^ c) (0xFF ^^^ a) l := rfl

theorem checksum_eq_xor (l : List Nat) :
    checksum l = 0xFF ^^^ List.foldl (fun s c => s ^^^ c) 0 l := by
  have h := foldl_xor_shift l 0xFF 0
  simpa [checksum] using h

theorem checksum_append_single (l : List Nat) (a : Nat) :
    checksum (l ++ [a]) = checksum l ^^^ a := by
  simp [checksum, List.foldl_append]

theorem xsum_cons (a : Nat) (l : List Nat) :
    List.foldl (fun s c => s ^^^ c) 0 (a :: l)
      = a ^^^ List.foldl (fun s c => s ^^^ c) 0 l := by
  have h := foldl_xor_shift l a 0
  simpa using h

theorem getLast?_append_single (l : List Nat) (a : Nat) :
    (l ++ [a]).getLast? = some a := by
  rw [List.getLast?_append_cons]
  rfl

theorem xor_shift_iff (a r l : Nat) : (a ^^^ r) ^^^ l = 0 ↔ r = a ^^^ l := by
  constructor
  · intro h
    have h1 : a ^^^ r = l := Nat.xor_eq_zero.mp h
    calc r = a ^^^ (a ^^^ r) := (Nat.xor_cancel_left a r).symm
    _ = a ^^^ l := by rw [h1]
  · intro h
    subst h
    rw [Nat.xor_cancel_left, Nat.xor_self]

/-- C3: the checksum is the XOR of `0xFF` with the length byte, the
direction/type byte and every payload byte in order (this is `checksum`
applied to `len :: dir :: payload`, which is exactly what `Send2ZWave`
appends as the trailing byte of the encoded frame); and the receive-side
validation of `GetZWave` — XOR-ing the received length byte into the
checksum of the received body `dir :: payload ++ [recv]` — yields zero
exactly when the received trailing byte `recv` equals the checksum
recomputed over the unaltered length, direction and payload bytes. -/
theorem checksum_validation_iff (len dir recv : Nat) (payload : List Nat) :
    (checksum ((dir :: payload) ++ [recv]) ^^^ len = 0 ↔
      recv = checksum (len :: dir :: payload)) ∧
    (encodeFrame payload).getLast? =
      some (checksum ((payload.length + 2) :: REQUEST :: payload)) := by
  constructor
  · rw [checksum_append_single, checksum_eq_xor (dir :: payload),
      checksum_eq_xor (len :: dir :: payload), xsum_cons, xsum_cons, xsum_cons]
    set X := List.foldl (fun s c => s ^^^ c) 0 payload with hX
    rw [xor_shift_iff (0xFF ^^^ (dir ^^^ X)) recv len]
    have hac : (0xFF ^^^ (dir ^^^ X)) ^^^ len = 0xFF ^^^ (len ^^^ (dir ^^^ X)) := by
      rw [Nat.xor_assoc]
      congr 1
      rw [Nat.xor_comm]
    rw [hac]
  · have hsplit : SOF :: (payload.length + 2) :: REQUEST :: payload
          ++ [checksum ((payload.length + 2) :: REQUEST :: payload)]
        = (SOF :: (payload.length + 2) :: REQUEST :: payload)
          ++ [checksum ((payload.length + 2) :: REQUEST :: payload)] := by
      simp
    show (SOF :: (payload.length + 2) :: REQUEST :: payload
        ++ [checksum ((payload.length + 2) :: REQUEST :: payload)]).getLast? = _
    rw [hsplit, getLast?_append_single]

/-- result of one `GetZWave` call. -/
inductive GZ where
  /-- returned `None` (timeout). -/
  | noFrame : GZ
  /-- normal return of `pkt[1:-1]`. -/
  | frame (payload : List Nat) : GZ
  /-- richer variant only: early `return(pkt)` of the partial packet when a
  body byte stalls (`ZWaveRSSITest.py` line 227). -/
  | truncated (pkt : List Nat) : GZ
  /-- Python `TypeError` crash: `ord(None)` or `pkt += None`. -/
  | typeError : GZ
  deriving DecidableEq, Repr

/-- resynchronization loop of `GetZWave` (`ZWaveRangeTest.py` lines 219-221,
`ZWaveRSSITest.py` lines 214-218): with `c` the byte just read, keep reading
until `SOF` is seen; if a read times out, `c` becomes `None` and the next
`ord(c)` raises (result `none`). On success returns the unread remainder. -/
def syncSOF : Nat → List (Option Nat) → Option (List (Option Nat))
  | c, s =>
    if c = SOF then some s
    else
      match s with
      | [] => none
      | none :: _ => none
      | some b :: rest => syncSOF b rest

/-- body read of the lighter `GetZWave` (`ZWaveRangeTest.py` lines 225-227):
read exactly `n` bytes appending each to the packet; a timed-out read makes
`pkt += c` raise on `None` (result `none`). On success returns the packet
and the unread remainder. -/
def readBodyRange : Nat → List (Option Nat) → Option (List Nat × List (Option Nat))
  | 0, s => some ([], s)
  | _ + 1, [] => none
  | _ + 1, none :: _ => none
  | n + 1, some b :: rest =>
    (readBodyRange n rest).map (fun pr => (b :: pr.1, pr.2))

/-- body read of the richer `GetZWave` (`ZWaveRSSITest.py` lines 221-228):
like the lighter variant, except a timed-out byte makes the routine return
the partial packet collected so far (the inner stall loop of lines 224-226
never re-reads `c`, so after ten sleeps line 227 returns `pkt`). The middle
component is `false` on that early return. -/
def readBodyRSSI : Nat → List Nat → List (Option Nat) →
    List Nat × Bool × List (Option Nat)
  | 0, acc, s => (acc, true, s)
  | _ + 1, acc, [] => (acc, false, [])
  | _ + 1, acc, none :: rest => (acc, false, rest)
  | n + 1, acc, some b :: rest => readBodyRSSI n (acc ++ [b]) rest

/-- continuation of the lighter `GetZWave` after the body read: a crashed
body read propagates the crash; otherwise the checksum is recomputed (lines
228-231, diagnostic only), the single `ACK` of line 232 is written, and
`pkt[1:-1]` is returned. -/
def getZWaveRangeBody : Option (List Nat × List (Option Nat)) → GZ × List Nat
  | none => (.typeError, [])
  | some (pkt, _) => (.frame ((pkt.drop 1).dropLast), [ACK])

/-- continuation of the lighter `GetZWave` after resynchronization: a crashed
resync propagates; otherwise the length byte is read (`ord(None)` raises if
it stalls, line 224) and the body is read. -/
def getZWaveRangeSynced : Option (List (Option Nat)) → GZ × List Nat
  | none => (.typeError, [])
  | some [] => (.typeError, [])
  | some (none :: _) => (.typeError, [])
  | some (some length :: s2) => getZWaveRangeBody (readBodyRange length s2)

/-- the lighter `GetZWave` (`ZWaveRangeTest.py` lines 212-233) run over an
input stream: returns the call's result together with the bytes it wrote
back to the UART. A first-read timeout returns `None` (line 218); the dead
`if ord(c)!=SOF: return None` of lines 222-223 is unreachable after the
resync loop and is not modelled. -/
def getZWaveRange (stream : List (Option Nat)) : GZ × List Nat :=
  match stream with
  | [] => (.noFrame, [])
  | none :: _ => (.noFrame, [])
  | some c :: rest => getZWaveRangeSynced (syncSOF c rest)

/-- continuation of the richer `GetZWave` after the body read: an incomplete
body returns the partial packet with no `ACK`; a complete one is ACKed and
stripped exactly as in the lighter variant (`ZWaveRSSITest.py` lines 229-234). -/
def getZWaveRSSIBody : List Nat × Bool × List (Option Nat) → GZ × List Nat
  | (pkt, false, _) => (.truncated pkt, [])
  | (pkt, true, _) => (.frame ((pkt.drop 1).dropLast), [ACK])

/-- continuation of the richer `GetZWave` after resynchronization
(`ZWaveRSSITest.py` lines 220-234). -/
def getZWaveRSSISynced : Option (List (Option Nat)) → GZ × List Nat
  | none => (.typeError, [])
  | some [] => (.typeError, [])
  | some (none :: _) => (.typeError, [])
  | some (some length :: s2) => getZWaveRSSIBody (readBodyRSSI length [] s2)

/-- the richer `GetZWave` (`ZWaveRSSITest.py` lines 207-234) run over an
input stream. -/
def getZWaveRSSI (stream : List (Option Nat)) : GZ × List Nat :=
  match stream with
  | [] => (.noFrame, [])
  | none :: _ => (.noFrame, [])
  | some c :: rest => getZWaveRSSISynced (syncSOF c rest)

theorem getZWaveRange_cons (c : Nat) (rest : List (Option Nat)) :
    getZWaveRange (some c :: rest) = getZWaveRangeSynced (syncSOF c rest) := rfl

theorem getZWaveRangeSynced_some (len : Nat) (s2 : List (Option Nat)) :
    getZWaveRangeSynced (some (some len :: s2))
      = getZWaveRangeBody (readBodyRange len s2) := rfl

theorem getZWaveRSSI_cons (c : Nat) (rest : List (Option Nat)) :
    getZWaveRSSI (some c :: rest) = getZWaveRSSISynced (syncSOF c rest) := rfl

theorem getZWaveRSSISynced_some (len : Nat) (s2 : List (Option Nat)) :
    getZWaveRSSISynced (some (some len :: s2))
      = getZWaveRSSIBody (readBodyRSSI len [] s2) := rfl

theorem syncSOF_self (s : List (Option Nat)) : syncSOF SOF s = some s := by
  rw [syncSOF.eq_def]
  simp

theorem syncSOF_skip (c : Nat) (junk : List Nat) (s : List (Option Nat))
    (hc : c ≠ SOF) (hj : ∀ x ∈ junk, x ≠ SOF) :
    syncSOF c (junk.map some ++ some SOF :: s) = some s := by
  induction junk generalizing c with
  | nil =>
    rw [syncSOF.eq_def]
    simp only [List.map_nil, List.nil_append, if_neg hc]
    exact syncSOF_self s
  | cons j js ih =>
    rw [syncSOF.eq_def]
    simp only [List.map_cons, List.cons_append, if_neg hc]
    exact ih j (hj j (by simp)) (fun x hx => hj x (by simp [hx]))

theorem syncSOF_stall (c : Nat) (junk : List Nat) (s : List (Option Nat))
    (hc : c ≠ SOF) (hj : ∀ x ∈ junk, x ≠ SOF) :
    syncSOF c (junk.map some ++ none :: s) = none := by
  induction junk generalizing c with
  | nil =>
    rw [syncSOF.eq_def]
    simp [if_neg hc]
  | cons j js ih =>
    rw [syncSOF.eq_def]
    simp only [List.map_cons, List.cons_append, if_neg hc]
    exact ih j (hj j (by simp)) (fun x hx => hj x (by simp [hx]))

theorem readBodyRange_complete (body : List Nat) (s : List (Option Nat)) :
    readBodyRange body.length (body.map some ++ s) = some (body, s) := by
  induction body with
  | nil => rfl
  | cons b t ih =>
    rw [List.length_cons, List.map_cons, List.cons_append, readBodyRange, ih]
    rfl

theorem readBodyRange_stall (n : Nat) (body : List Nat) (s : List (Option Nat))
    (h : body.length < n) :
    readBodyRange n (body.map some ++ none :: s) = none := by
  induction body generalizing n with
  | nil =>
    match n, h with
    | m + 1, _ => rfl
  | cons b t ih =>
    match n, h with
    | m + 1, h =>
      have ht : t.length < m := by simpa using h
      rw [List.map_cons, List.cons_append, readBodyRange, ih m ht]
      rfl

theorem readBodyRSSI_complete (body acc : List Nat) (s : List (Option Nat)) :
    readBodyRSSI body.length acc (body.map some ++ s) = (acc ++ body, true, s) := by
  induction body generalizing acc with
  | nil => simp [readBodyRSSI]
  | cons b t ih =>
    rw [List.length_cons, List.map_cons, List.cons_append, readBodyRSSI, ih (acc ++ [b])]
    simp

/-- a complete frame on the stream — junk, `SOF`, length byte, all body
bytes — is returned stripped with a single `ACK` written (lighter variant). -/
theorem getZWaveRange_complete (junk body : List Nat) (s : List (Option Nat))
    (hjunk : ∀ x ∈ junk, x ≠ SOF) :
    getZWaveRange (junk.map some ++ (some SOF :: some body.length :: (body.map some ++ s)))
      = (.frame ((body.drop 1).dropLast), [ACK]) := by
  cases junk with
  | nil =>
    rw [List.map_nil, List.nil_append, getZWaveRange_cons, syncSOF_self,
      getZWaveRangeSynced_some, readBodyRange_complete]
    rfl
  | cons j js =>
    rw [List.map_cons, List.cons_append, getZWaveRange_cons,
      syncSOF_skip j js _ (hjunk j (by simp)) (fun x hx => hjunk x (by simp [hx])),
      getZWaveRangeSynced_some, readBodyRange_complete]
    rfl

/-- a complete frame on the stream is returned stripped with a single `ACK`
written (richer variant). -/
theorem getZWaveRSSI_complete (junk body : List Nat) (s : List (Option Nat))
    (hjunk : ∀ x ∈ junk, x ≠ SOF) :
    getZWaveRSSI (junk.map some ++ (some SOF :: some body.length :: (body.map some ++ s)))
      = (.frame ((body.drop 1).dropLast), [ACK]) := by
  cases junk with
  | nil =>
    rw [List.map_nil, List.nil_append, getZWaveRSSI_cons, syncSOF_self,
      getZWaveRSSISynced_some, readBodyRSSI_complete]
    rfl
  | cons j js =>
    rw [List.map_cons, List.cons_append, getZWaveRSSI_cons,
      syncSOF_skip j js _ (hjunk j (by simp)) (fun x hx => hjunk x (by simp [hx])),
      getZWaveRSSISynced_some, readBodyRSSI_complete]
    rfl

theorem getZWaveRangeSynced_ne_noFrame (o : Option (List (Option Nat))) :
    (getZWaveRangeSynced o).1 ≠ GZ.noFrame := by
  match o with
  | none => simp [getZWaveRangeSynced]
  | some [] => simp [getZWaveRangeSynced]
  | some (none :: _) => simp [getZWaveRangeSynced]
  | some (some len :: s2) =>
    rw [getZWaveRangeSynced_some]
    cases hrb : readBodyRange len s2 with
    | none => simp [getZWaveRangeBody]
    | some pr => simp [getZWaveRangeBody]

theorem getZWaveRSSISynced_ne_noFrame (o : Option (List (Option Nat))) :
    (getZWaveRSSISynced o).1 ≠ GZ.noFrame := by
  match o with
  | none => simp [getZWaveRSSISynced]
  | some [] => simp [getZWaveRSSISynced]
  | some (none :: _) => simp [getZWaveRSSISynced]
  | some (some len :: s2) =>
    rw [getZWaveRSSISynced_some]
    match readBodyRSSI len [] s2 with
    | (pkt, false, r) => simp [getZWaveRSSIBody]
    | (pkt, true, r) => simp [getZWaveRSSIBody]

/-- C2: for every payload `P` of 0 to 253 bytes, encoding `P` into a wire
frame with `Send2ZWave`'s framing (start marker, length byte `len(P)+2`,
`REQUEST` byte, payload, checksum) and feeding that byte sequence to the
frame-receive routine `GetZWave` yields exactly `P` — the direction byte and
checksum byte are stripped — together with the single frame `ACK`. -/
theorem encode_decode_roundtrip (P : List Nat) (hlen : P.length <= 253)
    (hbytes : ∀ b ∈ P, b < 256) :
    getZWaveRange ((encodeFrame P).map some) = (GZ.frame P, [ACK]) := by
  set chk := checksum ((P.length + 2) :: REQUEST :: P) with hchk
  have hBlen : (REQUEST :: (P ++ [chk])).length = P.length + 2 := by
    simp
  have hstream : (encodeFrame P).map some
      = ([] : List Nat).map some
        ++ (some SOF :: some (REQUEST :: (P ++ [chk])).length
          :: ((REQUEST :: (P ++ [chk])).map some ++ ([] : List (Option Nat)))) := by
    rw [hBlen]
    simp [encodeFrame]
  rw [hstream, getZWaveRange_complete [] (REQUEST :: (P ++ [chk])) [] (by simp)]
  simp

theorem encode_decode_roundtrip_witness :
    getZWaveRange ((encodeFrame [0x13, 0x02, 0x03]).map some)
      = (GZ.frame [0x13, 0x02, 0x03], [ACK]) :=
  encode_decode_roundtrip [0x13, 0x02, 0x03] (by decide) (by decide)

/-- C4: on every input stream in which the receive routine reads a start
marker (possibly after discarding non-marker junk), a length byte, and all
`len`-many body bytes without any single-byte stall, it writes exactly one
acknowledgment byte `0x06` before returning — in both program variants, and
with no constraint relating `body` to its checksum, i.e. whether or not the
checksum validation succeeds. -/
theorem readFrame_acks_once (junk body : List Nat) (len : Nat)
    (s : List (Option Nat)) (hjunk : ∀ x ∈ junk, x ≠ SOF)
    (hbody : body.length = len) :
    (getZWaveRange (junk.map some ++ (some SOF :: some len :: (body.map some ++ s)))).2
      = [ACK] ∧
    (getZWaveRSSI (junk.map some ++ (some SOF :: some len :: (body.map some ++ s)))).2
      = [ACK] := by
  subst hbody
  rw [getZWaveRange_complete junk body s hjunk, getZWaveRSSI_complete junk body s hjunk]
  exact ⟨rfl, rfl⟩

theorem readFrame_acks_once_witness :
    (getZWaveRange [some 0xAA, some SOF, some 3, some 0, some 0x4A, some 0x99]).2
      = [ACK] ∧
    (getZWaveRSSI [some 0xAA, some SOF, some 3, some 0, some 0x4A, some 0x99]).2
      = [ACK] :=
  readFrame_acks_once [0xAA] [0, 0x4A, 0x99] 3 [] (by decide) (by decide)

/-- C10: the receive routine returns the "no frame" result (`None`) only when
the very first byte wait times out (part 1, both variants); a stream whose
first byte is not the start marker and that times out during the
resynchronization loop makes the routine crash with a `TypeError`
(`ord(None)`) in both variants (part 2); and in the lighter variant a
timeout on any body byte after the length byte also crashes (`pkt += None`)
instead of returning `None` or a partial frame (part 3). -/
theorem getZWave_timeout_behavior :
    (∀ s : List (Option Nat),
      ((getZWaveRange s).1 = GZ.noFrame ↔ s.head? = none ∨ s.head? = some none) ∧
      ((getZWaveRSSI s).1 = GZ.noFrame ↔ s.head? = none ∨ s.head? = some none)) ∧
    (∀ (b : Nat) (junk : List Nat) (s : List (Option Nat)), b ≠ SOF →
      (∀ x ∈ junk, x ≠ SOF) →
      (getZWaveRange (some b :: (junk.map some ++ none :: s))).1 = GZ.typeError ∧
      (getZWaveRSSI (some b :: (junk.map some ++ none :: s))).1 = GZ.typeError) ∧
    (∀ (len : Nat) (body : List Nat) (s : List (Option Nat)), body.length < len →
      (getZWaveRange (some SOF :: some len :: (body.map some ++ none :: s))).1
        = GZ.typeError) := by
  refine ⟨?_, ?_, ?_⟩
  · intro s
    match s with
    | [] => simp [getZWaveRange, getZWaveRSSI]
    | none :: rest => simp [getZWaveRange, getZWaveRSSI]
    | some c :: rest =>
      rw [getZWaveRange_cons, getZWaveRSSI_cons]
      constructor
      · constructor
        · intro h
          exact absurd h (getZWaveRangeSynced_ne_noFrame _)
        · intro h
          simp at h
      · constructor
        · intro h
          exact absurd h (getZWaveRSSISynced_ne_noFrame _)
        · intro h
          simp at h
  · intro b junk s hb hjunk
    rw [getZWaveRange_cons, getZWaveRSSI_cons, syncSOF_stall b junk s hb hjunk]
    exact ⟨rfl, rfl⟩
  · intro len body s h
    rw [getZWaveRange_cons, syncSOF_self, getZWaveRangeSynced_some,
      readBodyRange_stall len body s h]
    rfl

theorem getZWave_timeout_behavior_witness :
    (getZWaveRange [some 0x55, none]).1 = GZ.typeError ∧
    (getZWaveRSSI [some 0x55, none]).1 = GZ.typeError ∧
    (getZWaveRange [some SOF, some 2, some 0x4A, none]).1 = GZ.typeError :=
  ⟨(getZWave_timeout_behavior.2.1 0x55 [] [] (by decide) (by decide)).1,
    (getZWave_timeout_behavior.2.1 0x55 [] [] (by decide) (by decide)).2,
    getZWave_timeout_behavior.2.2 2 [0x4A] [] (by decide)⟩

/-- MapRSSI of `ZWaveRSSITest.py` lines 341-350: pure conversion of an RSSI
byte to a display string; the three sentinel values map to fixed strings and
every other value `r` maps to `"{256-r}dbm"`; a `None` argument maps to
`"Error"`. -/
def MapRSSI (rssi : Option Nat) : String :=
  match rssi with
  | none => "Error"
  | some r =>
    if r = 0x7F then "RSSI_NOT_AVAILABLE"
    else if r = 0x7E then "RSSI_MAX_POWER_SATURATED"
    else if r = 0x7D then "RSSI_BELOW_SENSITIVITY"
    else Nat.repr (256 - r) ++ "dbm"

/-- C9: the RSSI decoder is a pure total function on bytes: `0x7F` maps to
the not-available string, `0x7E` to the saturated string, `0x7D` to the
below-sensitivity string, and every other byte value `v` maps to the reading
`256 - v` dBm; in particular `0x20` decodes to `224 dBm` (256 - 32). -/
theorem mapRSSI_decode (v : Nat) (hv : v < 256) :
    MapRSSI (some 0x7F) = "RSSI_NOT_AVAILABLE" ∧
    MapRSSI (some 0x7E) = "RSSI_MAX_POWER_SATURATED" ∧
    MapRSSI (some 0x7D) = "RSSI_BELOW_SENSITIVITY" ∧
    (v ≠ 0x7D → v ≠ 0x7E → v ≠ 0x7F →
      MapRSSI (some v) = Nat.repr (256 - v) ++ "dbm") ∧
    MapRSSI (some 0x20) = "224dbm" := by
  refine ⟨rfl, rfl, rfl, ?_, rfl⟩
  intro h1 h2 h3
  simp [MapRSSI, h1, h2, h3]

theorem mapRSSI_decode_witness :
    MapRSSI (some 0x20) = Nat.repr (256 - 0x20) ++ "dbm" :=
  (mapRSSI_decode 0x20 (by decide)).2.2.2.1 (by decide) (by decide) (by decide)

/-- loop-continuation condition of the inclusion/exclusion polling loop
(`ZWaveRangeTest.py` line 362, `ZWaveRSSITest.py` line 393 after its
`pkt != None` guard): `state < 5 and len(pkt) > 2 and not (pkt[2] == 0x05 or
pkt[2] == 0x06)`. -/
abbrev incCond (state : Nat) (p : List Nat) : Prop :=
  state < 5 ∧ 2 < p.length ∧ p.getD 2 0 ≠ 0x05 ∧ p.getD 2 0 ≠ 0x06

/-- polling loop of the inclusion/exclusion controller, lighter variant
(`ZWaveRangeTest.py` lines 360-368, identical in the `exc` branch lines
376-384): `state` is the loop counter, `pkt` the callback frame most
recently fetched (`none` = `GetZWave` timed out and returned `None`), and
`script` the results of the remaining in-loop `GetZWave` calls (an exhausted
script means every further fetch times out). Returns how many further
callback fetches are performed and whether the trailing stop command of
line 368 is reached (`false` = the `len(pkt)` evaluation on `None` raised a
`TypeError` first, skipping the stop). -/
def incLoopRange (state : Nat) (pkt : Option (List Nat))
    (script : List (Option (List Nat))) : Nat × Bool :=
  match pkt with
  | none => (0, false)
  | some p =>
    if incCond state p then
      match script with
      | [] => (1, false)
      | q :: rest =>
        let r := incLoopRange (state + 1) q rest
        (r.1 + 1, r.2)
    else (0, true)

/-- polling loop of the inclusion/exclusion controller, richer variant
(`ZWaveRSSITest.py` lines 391-399, identical in the `exc` branch lines
407-415): same as the lighter variant except the loop condition and the
in-loop report guard both test `pkt != None` first, so a timed-out fetch
exits the loop normally and the stop command of line 399 is still reached. -/
def incLoopRSSI (state : Nat) (pkt : Option (List Nat))
    (script : List (Option (List Nat))) : Nat × Bool :=
  match pkt with
  | none => (0, true)
  | some p =>
    if incCond state p then
      match script with
      | [] => (1, true)
      | q :: rest =>
        let r := incLoopRSSI (state + 1) q rest
        (r.1 + 1, r.2)
    else (0, true)

/-- C1 counterexample: a callback frame with status `FAILED` (0x07) is not
terminal for the polling loop — with such a frame in hand, the controller
performs a further callback fetch (here exactly one, which then returns a
`DONE` frame) before the stop command, in both variants, refuting the claim
that a `FAILED` frame stops the fetching. -/
theorem inc_failed_not_terminal_cex :
    (incLoopRange 0 (some [0x4A, 0x01, 0x07]) [some [0x4A, 0x01, 0x06]]).1 = 1 ∧
    (incLoopRSSI 0 (some [0x4A, 0x01, 0x07]) [some [0x4A, 0x01, 0x06]]).1 = 1 := by
  exact ⟨rfl, rfl⟩

/-- C1 (amended): the polling loop stops fetching as soon as a frame whose
status byte is `PROTOCOL_DONE` (0x05) or `DONE` (0x06) is seen — whenever
the callback frame in hand carries one of those statuses, no further
callback fetch is performed before the stop command, at any loop counter
value and for every remaining script, in both variants. (`FAILED` (0x07)
does not stop the loop; see the counterexample.) -/
theorem inc_terminal_stops_fetching (state : Nat) (p : List Nat)
    (script : List (Option (List Nat)))
    (hterm : p.getD 2 0 = 0x05 ∨ p.getD 2 0 = 0x06) :
    (incLoopRange state (some p) script).1 = 0 ∧
    (incLoopRSSI state (some p) script).1 = 0 := by
  have hcond : ¬incCond state p := by
    rintro ⟨-, -, h5, h6⟩
    rcases hterm with h | h
    · exact h5 h
    · exact h6 h
  constructor
  · cases script with
    | nil =>
      show (if incCond state p then ((1 : Nat), false) else ((0 : Nat), true)).1 = 0
      rw [if_neg hcond]
    | cons q rest =>
      show (if incCond state p
          then ((incLoopRange (state + 1) q rest).1 + 1,
            (incLoopRange (state + 1) q rest).2)
          else ((0 : Nat), true)).1 = 0
      rw [if_neg hcond]
  · cases script with
    | nil =>
      show (if incCond state p then ((1 : Nat), true) else ((0 : Nat), true)).1 = 0
      rw [if_neg hcond]
    | cons q rest =>
      show (if incCond state p
          then ((incLoopRSSI (state + 1) q rest).1 + 1,
            (incLoopRSSI (state + 1) q rest).2)
          else ((0 : Nat), true)).1 = 0
      rw [if_neg hcond]

theorem inc_terminal_stops_fetching_witness :
    (incLoopRange 0 (some [0x4A, 0x01, 0x06]) [some [0x4A, 0x01, 0x02]]).1 = 0 ∧
    (incLoopRSSI 0 (some [0x4A, 0x01, 0x06]) [some [0x4A, 0x01, 0x02]]).1 = 0 :=
  inc_terminal_stops_fetching 0 [0x4A, 0x01, 0x06] [some [0x4A, 0x01, 0x02]]
    (Or.inr rfl)

theorem incLoopRSSI_stop (state : Nat) (pkt : Option (List Nat))
    (script : List (Option (List Nat))) :
    (incLoopRSSI state pkt script).2 = true := by
  induction script generalizing state pkt with
  | nil =>
    match pkt with
    | none => rfl
    | some p =>
      show (if incCond state p then ((1 : Nat), true) else ((0 : Nat), true)).2 = true
      split
      · rfl
      · rfl
  | cons q rest ih =>
    match pkt with
    | none => rfl
    | some p =>
      show (if incCond state p
          then ((incLoopRSSI (state + 1) q rest).1 + 1,
            (incLoopRSSI (state + 1) q rest).2)
          else ((0 : Nat), true)).2 = true
      split
      · exact ih (state + 1) q
      · rfl

theorem incLoopRange_stop (state : Nat) (p : List Nat)
    (script : List (Option (List Nat)))
    (hsome : ∀ q ∈ script, q ≠ none) (hlen : 5 ≤ state + script.length) :
    (incLoopRange state (some p) script).2 = true := by
  induction script generalizing state p with
  | nil =>
    show (if incCond state p then ((1 : Nat), false) else ((0 : Nat), true)).2 = true
    have h5 : ¬state < 5 := by simpa using hlen
    rw [if_neg (fun h => h5 h.1)]
  | cons q rest ih =>
    show (if incCond state p
        then ((incLoopRange (state + 1) q rest).1 + 1,
          (incLoopRange (state + 1) q rest).2)
        else ((0 : Nat), true)).2 = true
    split
    · match q, hsome q (by simp) with
      | some p2, _ =>
        exact ih (state + 1) p2 (fun x hx => hsome x (by simp [hx]))
          (by simp at hlen; omega)
    · rfl

/-- C7 counterexample: when the first callback fetch times out (`GetZWave`
returns `None`), the lighter variant's loop condition evaluates `len(None)`
and raises a `TypeError`, so the execution ends without ever issuing the
stop command — refuting the claim that the stop command is issued on every
execution. -/
theorem inc_stop_skipped_cex : (incLoopRange 0 none []).2 = false := rfl

/-- C7 (amended): the richer variant always issues the stop command after
its polling loop, for every scripted callback sequence; the lighter variant
issues it provided the initial callback frame arrived and every in-loop
fetch that can occur within the 5-iteration budget returns an actual frame
(no `None`/timeout) — a timed-out fetch there raises before the stop
command is reached. -/
theorem inc_stop_issued (state : Nat) (p : List Nat) (pkt : Option (List Nat))
    (script : List (Option (List Nat)))
    (hsome : ∀ q ∈ script, q ≠ none) (hlen : 5 ≤ state + script.length) :
    (incLoopRange state (some p) script).2 = true ∧
    (incLoopRSSI state pkt script).2 = true :=
  ⟨incLoopRange_stop state p script hsome hlen, incLoopRSSI_stop state pkt script⟩

theorem inc_stop_issued_witness :
    (incLoopRange 0 (some [0x4A, 0x01, 0x01])
      [some [0x4A, 0x01, 0x02], some [0x4A, 0x01, 0x02], some [0x4A, 0x01, 0x03],
        some [0x4A, 0x01, 0x05], some [0x4A, 0x01, 0x06]]).2 = true ∧
    (incLoopRSSI 0 none
      [some [0x4A, 0x01, 0x02], some [0x4A, 0x01, 0x02], some [0x4A, 0x01, 0x03],
        some [0x4A, 0x01, 0x05], some [0x4A, 0x01, 0x06]]).2 = true :=
  inc_stop_issued 0 [0x4A, 0x01, 0x01] none
    [some [0x4A, 0x01, 0x02], some [0x4A, 0x01, 0x02], some [0x4A, 0x01, 0x03],
      some [0x4A, 0x01, 0x05], some [0x4A, 0x01, 0x06]]
    (by decide) (by decide)

/-- cancel byte of the SerialAPI handshake (source constant `CAN = 0x18`). -/
def CAN : Nat := 0x18

/-- environment of one attempt of the `Send2ZWave` retry loop: the result of
the 500 ms handshake wait (`GetRxChar(500)`; `none` = no byte arrived) and,
for the probe loop of a silent attempt, whether `inWaiting()` reported a
byte on the link after each successive probe write. -/
structure AttemptEnv where
  reply : Option Nat
  probeFlags : List Bool
  deriving DecidableEq, Repr

/-- probe loop of a silent `Send2ZWave` attempt (`ZWaveRangeTest.py` lines
262-264, `ZWaveRSSITest.py` lines 263-265): `for i in range(32)` — each
iteration writes one `ACK` and then breaks if a byte is waiting on the link.
Returns the number of `ACK` bytes written; a missing flag means no byte was
waiting. -/
def probeLoop : Nat → List Bool → Nat
  | 0, _ => 0
  | n + 1, flags => if flags.headD false then 1 else 1 + probeLoop n flags.tail

/-- transcript of the `Send2ZWave` handshake/retry loop: how many times the
full encoded frame was transmitted, how many probe `ACK`s each silent
attempt wrote (in order), and whether an `ACK` handshake byte was finally
received. -/
structure SendTranscript where
  transmissions : Nat
  probeCounts : List Nat
  acked : Bool
  deriving DecidableEq, Repr

/-- retry loop of the lighter `Send2ZWave` (`ZWaveRangeTest.py` lines
252-271) with `n` attempts remaining: each attempt writes the full encoded
frame, then waits for the handshake byte — no byte: run the probe loop and
retry; `ACK`: stop retrying; any other byte: write an `ACK`, drain the link
(the drain only discards input and is not recorded) and retry. An exhausted
environment list behaves as a permanently silent link. -/
def sendRetryRange : Nat → List AttemptEnv → SendTranscript
  | 0, _ => ⟨0, [], false⟩
  | n + 1, envs =>
    let e := envs.headD ⟨none, []⟩
    match e.reply with
    | none =>
      let r := sendRetryRange n envs.tail
      ⟨r.transmissions + 1, probeLoop 32 e.probeFlags :: r.probeCounts, r.acked⟩
    | some b =>
      if b = ACK then ⟨1, [], true⟩
      else
        let r := sendRetryRange n envs.tail
        ⟨r.transmissions + 1, r.probeCounts, r.acked⟩

/-- retry loop of the richer `Send2ZWave` (`ZWaveRSSITest.py` lines 253-289):
as the lighter variant plus a dedicated `CAN` branch (lines 268-279) that
ACKs and drains the link twice before retrying — the differences are writes
and drains the transcript does not record, so the branch is kept explicit but
transcribes like the other-byte branch. -/
def sendRetryRSSI : Nat → List AttemptEnv → SendTranscript
  | 0, _ => ⟨0, [], false⟩
  | n + 1, envs =>
    let e := envs.headD ⟨none, []⟩
    match e.reply with
    | none =>
      let r := sendRetryRSSI n envs.tail
      ⟨r.transmissions + 1, probeLoop 32 e.probeFlags :: r.probeCounts, r.acked⟩
    | some b =>
      if b = ACK then ⟨1, [], true⟩
      else if b = CAN then
        let r := sendRetryRSSI n envs.tail
        ⟨r.transmissions + 1, r.probeCounts, r.acked⟩
      else
        let r := sendRetryRSSI n envs.tail
        ⟨r.transmissions + 1, r.probeCounts, r.acked⟩

/-- the lighter `Send2ZWave` attempts the handshake up to 3 times:
`for retries in range(1,4)` (`ZWaveRangeTest.py` line 252). -/
def send2ZWaveRange (envs : List AttemptEnv) : SendTranscript :=
  sendRetryRange 3 envs

/-- the richer `Send2ZWave` attempts the handshake up to 4 times:
`for retries in range(1,5)` (`ZWaveRSSITest.py` line 253). -/
def send2ZWaveRSSI (envs : List AttemptEnv) : SendTranscript :=
  sendRetryRSSI 4 envs

theorem probeLoop_le (n : Nat) (flags : List Bool) : probeLoop n flags ≤ n := by
  induction n generalizing flags with
  | zero => exact Nat.le_refl 0
  | succ m ih =>
    show (if flags.headD false then 1 else 1 + probeLoop m flags.tail) ≤ m + 1
    split
    · omega
    · have := ih flags.tail
      omega

theorem probeLoop_first_true (k : Nat) (flags : List Bool) (n : Nat) (hk : k < n)
    (htrue : flags.getD k false = true)
    (hfalse : ∀ j < k, flags.getD j false = false) :
    probeLoop n flags = k + 1 := by
  induction k generalizing n flags with
  | zero =>
    cases flags with
    | nil => simp at htrue
    | cons w rest =>
      have hw : w = true := by simpa using htrue
      subst hw
      cases n with
      | zero => omega
      | succ m => rfl
  | succ k0 ih =>
    cases flags with
    | nil => simp at htrue
    | cons w rest =>
      have hw : w = false := by simpa using hfalse 0 (Nat.zero_lt_succ k0)
      subst hw
      cases n with
      | zero => omega
      | succ m =>
        have hrest : probeLoop m rest = k0 + 1 := by
          apply ih
          · omega
          · simpa using htrue
          · intro j hj
            simpa using hfalse (j + 1) (by omega)
        show (if ((false : Bool) :: rest).headD false then 1
          else 1 + probeLoop m ((false : Bool) :: rest).tail) = k0 + 1 + 1
        simp [hrest]
        omega

theorem sendRetryRange_step_silent (m : Nat) (envs : List AttemptEnv)
    (h : (envs.headD ⟨none, []⟩).reply = none) :
    sendRetryRange (m + 1) envs
      = ⟨(sendRetryRange m envs.tail).transmissions + 1,
          probeLoop 32 (envs.headD ⟨none, []⟩).probeFlags
            :: (sendRetryRange m envs.tail).probeCounts,
          (sendRetryRange m envs.tail).acked⟩ := by
  conv_lhs => rw [sendRetryRange.eq_def]
  simp only [h]

theorem sendRetryRSSI_step_silent (m : Nat) (envs : List AttemptEnv)
    (h : (envs.headD ⟨none, []⟩).reply = none) :
    sendRetryRSSI (m + 1) envs
      = ⟨(sendRetryRSSI m envs.tail).transmissions + 1,
          probeLoop 32 (envs.headD ⟨none, []⟩).probeFlags
            :: (sendRetryRSSI m envs.tail).probeCounts,
          (sendRetryRSSI m envs.tail).acked⟩ := by
  conv_lhs => rw [sendRetryRSSI.eq_def]
  simp only [h]

theorem sendRetry_silent (n : Nat) (envs : List AttemptEnv)
    (hsilent : ∀ e ∈ envs, e.reply = none) :
    (sendRetryRange n envs).transmissions = n ∧
    (sendRetryRange n envs).acked = false ∧
    (sendRetryRange n envs).probeCounts.length = n ∧
    (∀ c ∈ (sendRetryRange n envs).probeCounts, c ≤ 32) ∧
    (sendRetryRSSI n envs).transmissions = n ∧
    (sendRetryRSSI n envs).acked = false ∧
    (sendRetryRSSI n envs).probeCounts.length = n ∧
    (∀ c ∈ (sendRetryRSSI n envs).probeCounts, c ≤ 32) := by
  induction n generalizing envs with
  | zero =>
    refine ⟨rfl, rfl, rfl, ?_, rfl, rfl, rfl, ?_⟩
    · intro c hc
      simp [sendRetryRange] at hc
    · intro c hc
      simp [sendRetryRSSI] at hc
  | succ m ih =>
    have hhead : (envs.headD ⟨none, []⟩).reply = none := by
      cases envs with
      | nil => rfl
      | cons e es => exact hsilent e (by simp)
    have htail : ∀ e ∈ envs.tail, e.reply = none := fun e he =>
      hsilent e (List.mem_of_mem_tail he)
    have ihm := ih envs.tail htail
    rw [sendRetryRange_step_silent m envs hhead, sendRetryRSSI_step_silent m envs hhead]
    refine ⟨by simp [ihm.1], by simp [ihm.2.1], by simp [ihm.2.2.1], ?_,
      by simp [ihm.2.2.2.2.1], by simp [ihm.2.2.2.2.2.1],
      by simp [ihm.2.2.2.2.2.2.1], ?_⟩
    · intro c hc
      simp at hc
      rcases hc with hc | hc
      · exact hc ▸ probeLoop_le 32 _
      · exact ihm.2.2.2.1 c hc
    · intro c hc
      simp at hc
      rcases hc with hc | hc
      · exact hc ▸ probeLoop_le 32 _
      · exact ihm.2.2.2.2.2.2.2 c hc

/-- C5: when no handshake reply byte ever arrives (every attempt's 500 ms
wait returns nothing), `Send2ZWave` transmits the full encoded frame exactly
N times — N = 3 in the lighter variant (`range(1,4)`), N = 4 in the richer
one (`range(1,5)`) — runs the probe loop once per failed attempt writing at
most 32 probe `ACK` bytes each time, stopping early as soon as a byte
appears on the link (last conjunct: if the link first shows a byte after the
(k+1)-th probe write, exactly k+1 probes are sent), and finishes with no
confirmed delivery (`acked = false`) — the model is a total function, so the
routine returns normally rather than raising. -/
theorem send_no_reply_retries (envs : List AttemptEnv)
    (hsilent : ∀ e ∈ envs, e.reply = none) :
    (send2ZWaveRange envs).transmissions = 3 ∧
    (send2ZWaveRange envs).acked = false ∧
    (send2ZWaveRange envs).probeCounts.length = 3 ∧
    (∀ c ∈ (send2ZWaveRange envs).probeCounts, c ≤ 32) ∧
    (send2ZWaveRSSI envs).transmissions = 4 ∧
    (send2ZWaveRSSI envs).acked = false ∧
    (send2ZWaveRSSI envs).probeCounts.length = 4 ∧
    (∀ c ∈ (send2ZWaveRSSI envs).probeCounts, c ≤ 32) ∧
    (∀ (k : Nat) (flags : List Bool), k < 32 → flags.getD k false = true →
      (∀ j < k, flags.getD j false = false) → probeLoop 32 flags = k + 1) := by
  have h3 := sendRetry_silent 3 envs hsilent
  have h4 := sendRetry_silent 4 envs hsilent
  exact ⟨h3.1, h3.2.1, h3.2.2.1, h3.2.2.2.1, h4.2.2.2.2.1, h4.2.2.2.2.2.1,
    h4.2.2.2.2.2.2.1, h4.2.2.2.2.2.2.2,
    fun k flags hk ht hf => probeLoop_first_true k flags 32 hk ht hf⟩

theorem send_no_reply_retries_witness :
    (send2ZWaveRange [⟨none, [false, true]⟩]).transmissions = 3 ∧
    (send2ZWaveRange [⟨none, [false, true]⟩]).acked = false ∧
    probeLoop 32 [false, true] = 2 := by
  have h := send_no_reply_retries [⟨none, [false, true]⟩]
    (by intro e he; simp at he; subst he; rfl)
  exact ⟨h.1, h.2.1,
    h.2.2.2.2.2.2.2.2 1 [false, true] (by decide) (by decide) (by decide)⟩

/-- SerialAPI function id of ZW_SendData (source constant 0x13). -/
def FUNC_ID_ZW_SEND_DATA : Nat := 0x13

/-- PowerLevel command class (source constant 0x73). -/
def COMMAND_CLASS_POWERLEVEL : Nat := 0x73

/-- PowerLevel test-node SET command id (source constant 0x04). -/
def POWERLEVEL_TEST_NODE_SET : Nat := 0x04

/-- full-power level code (source constant 0x00). -/
def POWERLEVEL_SET_NORMALPOWER : Nat := 0x00

/-- minus-4 dBm level code (source constant 0x04). -/
def POWERLEVEL_SET_MINUS4DBM : Nat := 0x04

/-- minus-8 dBm level code (source constant 0x08). -/
def POWERLEVEL_SET_MINUS8DBM : Nat := 0x08

/-- nominally minus-9, really minus-10 dBm level code (source constant 0x09). -/
def POWERLEVEL_SET_MINUS9DBM : Nat := 0x09

/-- transmit options: auto-route with ACK
(`TXOPTS = TRANSMIT_OPTION_AUTO_ROUTE | TRANSMIT_OPTION_ACK = 0x04 | 0x01`). -/
def TXOPTS : Nat := 0x05

/-- the four power levels exercised by the descent, in order
(`ZWaveRangeTest.py` line 438). -/
def PowerLevelTests : List Nat :=
  [POWERLEVEL_SET_NORMALPOWER, POWERLEVEL_SET_MINUS4DBM,
    POWERLEVEL_SET_MINUS8DBM, POWERLEVEL_SET_MINUS9DBM]

/-- PowerLevel test-node SET command as packed by the range test — preflight
(`ZWaveRangeTest.py` lines 420-422: count bytes 0,3 and session funcID 44)
and descent loop (lines 446-448: count bytes 0,10 and session funcID 33):
`ZW_SendData(DevKit, 6, PowerlevelTestNodeSet(DUT, level, cntMSB, cntLSB),
TXOPTS, funcID)`. -/
def mkPowerLevelSet (devkit dut level cntMSB cntLSB funcID : Nat) : List Nat :=
  [FUNC_ID_ZW_SEND_DATA, devkit, 6, COMMAND_CLASS_POWERLEVEL,
    POWERLEVEL_TEST_NODE_SET, dut, level, cntMSB, cntLSB, TXOPTS, funcID]

/-- descending-power loop of the range test (`ZWaveRangeTest.py` lines
443-456): walks the remaining `levels`, consuming one scripted test report
per level (the SerialAPI response and DevKit-ACK fetches of each iteration
are ignored by the code and therefore not scripted). Returns the PowerLevel
SET commands sent, in order, and `some (lastPowerLevel, lastAck)` on normal
completion; a missing report (`GetZWave` returned `None`) makes line 451
evaluate `len(None)` and raise, modelled as result `none`. The loop breaks
at the first report that is not 10 bytes long or whose byte 9 is below 5
(line 453), otherwise records the level and count (lines 455-456). -/
def rampLoop (devkit dut : Nat) :
    List Nat → List (Option (List Nat)) → Nat → Nat → List (List Nat) →
      List (List Nat) × Option (Nat × Nat)
  | [], _, lastPL, lastAck, cmds => (cmds.reverse, some (lastPL, lastAck))
  | level :: levels, reports, lastPL, lastAck, cmds =>
    let cmd := mkPowerLevelSet devkit dut level 0 10 33
    match reports with
    | [] => ((cmd :: cmds).reverse, none)
    | none :: _ => ((cmd :: cmds).reverse, none)
    | some rpt :: rest =>
      if rpt.length ≠ 10 ∨ rpt.getD 9 0 < 5 then
        ((cmd :: cmds).reverse, some (lastPL, lastAck))
      else
        rampLoop devkit dut levels rest level (rpt.getD 9 0) (cmd :: cmds)

/-- entry of the descent loop: all four levels, with
`lastPowerLevel = POWERLEVEL_SET_NORMALPOWER` and `lastAck = 0`
(`ZWaveRangeTest.py` lines 443-444). -/
def rangeTestDescent (devkit dut : Nat) (reports : List (Option (List Nat))) :
    List (List Nat) × Option (Nat × Nat) :=
  rampLoop devkit dut PowerLevelTests reports POWERLEVEL_SET_NORMALPOWER 0 []

/-- final summary printed by line 458: DUT node id, yield percentage
(`lastAck * 10`), and minimum usable power level. -/
def rampSummary (dut : Nat) (res : Nat × Nat) : Nat × Nat × Nat :=
  (dut, res.2 * 10, res.1)

/-- how the range-test main sequence ends. -/
inductive RampOutcome where
  /-- the SerialAPI rejected the preflight send (lines 423-425). -/
  | rejected : RampOutcome
  /-- the DevKit did not ACK the preflight command (lines 427-430). -/
  | noAck : RampOutcome
  /-- the preflight report was malformed or showed no acknowledged probe
  (lines 432-434). -/
  | nopFailed : RampOutcome
  /-- a scripted response was `None` and a `len(None)` evaluation raised. -/
  | crashed : RampOutcome
  /-- the descent loop ran to its break or end (lines 445-458). -/
  | completed (lastPowerLevel lastAck : Nat) : RampOutcome
  deriving DecidableEq, Repr

/-- preflight and descent of the range test (`ZWaveRangeTest.py` lines
420-458). Scripted inputs: the SerialAPI response to the preflight
SEND_DATA, the DevKit ACK callback, the preflight test report, and the
per-level descent reports. Returns the preflight command, the descent
commands actually sent, and the outcome. The preflight aborts on
`len(pkt) < 2 or pkt[1] != 0x01` (line 423), `len(pkt) < 3 or pkt[2] != 0x00`
(line 427), or `len(pkt) != 10 or pkt[9] < 1` (line 432). -/
def rangeTestMain (devkit dut : Nat) (sendResp ackCb report : Option (List Nat))
    (loopReports : List (Option (List Nat))) :
    List Nat × List (List Nat) × RampOutcome :=
  let pre := mkPowerLevelSet devkit dut POWERLEVEL_SET_NORMALPOWER 0 3 44
  match sendResp with
  | none => (pre, [], .crashed)
  | some resp =>
    if resp.length < 2 ∨ resp.getD 1 0 ≠ 0x01 then (pre, [], .rejected)
    else
      match ackCb with
      | none => (pre, [], .crashed)
      | some cb =>
        if cb.length < 3 ∨ cb.getD 2 0 ≠ 0x00 then (pre, [], .noAck)
        else
          match report with
          | none => (pre, [], .crashed)
          | some rpt =>
            if rpt.length ≠ 10 ∨ rpt.getD 9 0 < 1 then (pre, [], .nopFailed)
            else
              let r := rangeTestDescent devkit dut loopReports
              (pre, r.1,
                match r.2 with
                | none => .crashed
                | some (pl, ack) => .completed pl ack)

theorem rampLoop_pass (devkit dut level lastPL lastAck : Nat)
    (levels : List Nat) (rest : List (Option (List Nat)))
    (cmds : List (List Nat)) (rpt : List Nat)
    (h : ¬(rpt.length ≠ 10 ∨ rpt.getD 9 0 < 5)) :
    rampLoop devkit dut (level :: levels) (some rpt :: rest) lastPL lastAck cmds
      = rampLoop devkit dut levels rest level (rpt.getD 9 0)
          (mkPowerLevelSet devkit dut level 0 10 33 :: cmds) := by
  conv_lhs => rw [rampLoop.eq_def]
  simp only [if_neg h]

theorem rampLoop_fail (devkit dut level lastPL lastAck : Nat)
    (levels : List Nat) (rest : List (Option (List Nat)))
    (cmds : List (List Nat)) (rpt : List Nat)
    (h : rpt.length ≠ 10 ∨ rpt.getD 9 0 < 5) :
    rampLoop devkit dut (level :: levels) (some rpt :: rest) lastPL lastAck cmds
      = ((mkPowerLevelSet devkit dut level 0 10 33 :: cmds).reverse,
          some (lastPL, lastAck)) := by
  conv_lhs => rw [rampLoop.eq_def]
  simp only [if_pos h]

/-- C6: for any per-level test reports, the descent loop iterates the levels
full, -4 dBm, -8 dBm, -10 dBm in order, sending each iteration's
PowerLevel SET with probe count 10 (the `cmds` conjunct lists the commands
actually sent), stops at the first level whose report carries an
acknowledgment count below 5, and ends with the previous level and its
count recorded; the summary of line 458 then reports that level with the
count times 10 as the yield percentage. `k` is the position of the first
failing level (at least 1: the full-power level passes). -/
theorem power_ramp_descent (devkit dut : Nat) (r0 r1 r2 r3 : List Nat)
    (c0 c1 c2 c3 k : Nat)
    (h0 : r0.length = 10) (g0 : r0.getD 9 0 = c0)
    (h1 : r1.length = 10) (g1 : r1.getD 9 0 = c1)
    (h2 : r2.length = 10) (g2 : r2.getD 9 0 = c2)
    (h3 : r3.length = 10) (g3 : r3.getD 9 0 = c3)
    (hk1 : 1 ≤ k) (hk : k < 4)
    (hfail : [c0, c1, c2, c3].getD k 0 < 5)
    (hpass : ∀ i < k, 5 ≤ [c0, c1, c2, c3].getD i 0) :
    rangeTestDescent devkit dut [some r0, some r1, some r2, some r3]
      = ((PowerLevelTests.take (k + 1)).map
          (fun pl => mkPowerLevelSet devkit dut pl 0 10 33),
        some (PowerLevelTests.getD (k - 1) 0, [c0, c1, c2, c3].getD (k - 1) 0)) ∧
    rampSummary dut (PowerLevelTests.getD (k - 1) 0, [c0, c1, c2, c3].getD (k - 1) 0)
      = (dut, [c0, c1, c2, c3].getD (k - 1) 0 * 10,
          PowerLevelTests.getD (k - 1) 0) := by
  refine ⟨?_, rfl⟩
  have hstart : rangeTestDescent devkit dut [some r0, some r1, some r2, some r3]
      = rampLoop devkit dut
          (POWERLEVEL_SET_NORMALPOWER :: [POWERLEVEL_SET_MINUS4DBM,
            POWERLEVEL_SET_MINUS8DBM, POWERLEVEL_SET_MINUS9DBM])
          (some r0 :: [some r1, some r2, some r3])
          POWERLEVEL_SET_NORMALPOWER 0 [] := rfl
  have p0 : 5 ≤ c0 → ¬(r0.length ≠ 10 ∨ r0.getD 9 0 < 5) := by
    intro hc
    rw [h0, g0]
    rintro (h | h)
    · exact h rfl
    · omega
  have p1 : 5 ≤ c1 → ¬(r1.length ≠ 10 ∨ r1.getD 9 0 < 5) := by
    intro hc
    rw [h1, g1]
    rintro (h | h)
    · exact h rfl
    · omega
  have p2 : 5 ≤ c2 → ¬(r2.length ≠ 10 ∨ r2.getD 9 0 < 5) := by
    intro hc
    rw [h2, g2]
    rintro (h | h)
    · exact h rfl
    · omega
  interval_cases k
  · have f1 : r1.length ≠ 10 ∨ r1.getD 9 0 < 5 :=
      Or.inr (by rw [g1]; simpa using hfail)
    rw [hstart, rampLoop_pass _ _ _ _ _ _ _ _ _ (p0 (by simpa using hpass 0 (by omega))),
      rampLoop_fail _ _ _ _ _ _ _ _ _ f1, g0]
    simp [PowerLevelTests, POWERLEVEL_SET_NORMALPOWER, POWERLEVEL_SET_MINUS4DBM,
      POWERLEVEL_SET_MINUS8DBM, POWERLEVEL_SET_MINUS9DBM]
  · have f2 : r2.length ≠ 10 ∨ r2.getD 9 0 < 5 :=
      Or.inr (by rw [g2]; simpa using hfail)
    rw [hstart, rampLoop_pass _ _ _ _ _ _ _ _ _ (p0 (by simpa using hpass 0 (by omega))),
      rampLoop_pass _ _ _ _ _ _ _ _ _ (p1 (by simpa using hpass 1 (by omega))),
      rampLoop_fail _ _ _ _ _ _ _ _ _ f2, g1]
    simp [PowerLevelTests, POWERLEVEL_SET_NORMALPOWER, POWERLEVEL_SET_MINUS4DBM,
      POWERLEVEL_SET_MINUS8DBM, POWERLEVEL_SET_MINUS9DBM]
  · have f3 : r3.length ≠ 10 ∨ r3.getD 9 0 < 5 :=
      Or.inr (by rw [g3]; simpa using hfail)
    rw [hstart, rampLoop_pass _ _ _ _ _ _ _ _ _ (p0 (by simpa using hpass 0 (by omega))),
      rampLoop_pass _ _ _ _ _ _ _ _ _ (p1 (by simpa using hpass 1 (by omega))),
      rampLoop_pass _ _ _ _ _ _ _ _ _ (p2 (by simpa using hpass 2 (by omega))),
      rampLoop_fail _ _ _ _ _ _ _ _ _ f3, g2]
    simp [PowerLevelTests, POWERLEVEL_SET_NORMALPOWER, POWERLEVEL_SET_MINUS4DBM,
      POWERLEVEL_SET_MINUS8DBM, POWERLEVEL_SET_MINUS9DBM]

theorem power_ramp_descent_witness :
    (rangeTestDescent 2 3 [some [0, 0, 0, 0, 0, 0, 0, 0, 0, 10],
        some [0, 0, 0, 0, 0, 0, 0, 0, 0, 10], some [0, 0, 0, 0, 0, 0, 0, 0, 0, 10],
        some [0, 0, 0, 0, 0, 0, 0, 0, 0, 3]]).2
      = some (POWERLEVEL_SET_MINUS8DBM, 10) ∧
    rampSummary 3 (POWERLEVEL_SET_MINUS8DBM, 10) = (3, 100, 0x08) := by
  have h := power_ramp_descent 2 3
    [0, 0, 0, 0, 0, 0, 0, 0, 0, 10] [0, 0, 0, 0, 0, 0, 0, 0, 0, 10]
    [0, 0, 0, 0, 0, 0, 0, 0, 0, 10] [0, 0, 0, 0, 0, 0, 0, 0, 0, 3]
    10 10 10 3 3 rfl rfl rfl rfl rfl rfl rfl rfl (by decide) (by decide)
    (by decide) (by decide)
  constructor
  · rw [h.1]
    rfl
  · rfl

/-- C8: in the power-ramp preflight, when the SerialAPI accepted the send
and the helper node ACKed the command but the full-power test report
(solicited with probe count 3 via the helper, session funcID 44) shows zero
acknowledged probes, the controller aborts with the NOP-failure outcome
before executing any iteration of the descending-power loop: no descent
command is sent. -/
theorem preflight_zero_acks_aborts (devkit dut : Nat) (resp cb rpt : List Nat)
    (loopReports : List (Option (List Nat)))
    (hresp : ¬(resp.length < 2 ∨ resp.getD 1 0 ≠ 0x01))
    (hcb : ¬(cb.length < 3 ∨ cb.getD 2 0 ≠ 0x00))
    (hlen : rpt.length = 10) (hzero : rpt.getD 9 0 = 0) :
    rangeTestMain devkit dut (some resp) (some cb) (some rpt) loopReports
      = (mkPowerLevelSet devkit dut POWERLEVEL_SET_NORMALPOWER 0 3 44, [],
          RampOutcome.nopFailed) := by
  have hz : rpt.length ≠ 10 ∨ rpt.getD 9 0 < 1 := Or.inr (by rw [hzero]; omega)
  conv_lhs => rw [rangeTestMain.eq_def]
  simp only [if_neg hresp, if_neg hcb, if_pos hz]

theorem preflight_zero_acks_aborts_witness :
    rangeTestMain 2 3 (some [0x13, 0x01]) (some [0x13, 0x00, 0x00])
      (some [0x73, 0x06, 0x03, 0x00, 0x00, 0x00, 0x00, 0x00, 0x00, 0x00]) []
      = (mkPowerLevelSet 2 3 POWERLEVEL_SET_NORMALPOWER 0 3 44, [],
          RampOutcome.nopFailed) :=
  preflight_zero_acks_aborts 2 3 [0x13, 0x01] [0x13, 0x00, 0x00]
    [0x73, 0x06, 0x03, 0x00, 0x00, 0x00, 0x00, 0x00, 0x00, 0x00] []
    (by decide) (by decide) rfl rfl

end ZWave
